import Mathlib

/-!
Verification of the Windows platform variant of the mlx5 flow-OS layer
(`drivers/net/mlx5/windows/mlx5_flow_os.c`).

The C file consists of six entry points:
  * `mlx5_flow_os_validate_flow_attributes` — checks flow attributes against
    platform constraints;
  * `mlx5_flow_os_create_flow_matcher` / `mlx5_flow_os_destroy_flow_matcher` —
    the only implemented lifecycle pair;
  * `mlx5_flow_os_create_flow_action_dest_devx_tir`,
    `mlx5_flow_os_destroy_flow_action`, `mlx5_flow_os_create_flow`,
    `mlx5_flow_os_destroy_flow` — unconditional not-supported stubs.

The embedding below translates each function into a pure Lean function.
Raw pointers become `Nat` handles, out-parameters become fields of an explicit
result record (`none` models a NULL out-pointer), the thread-local `rte_errno`
becomes a result field, and the allocator collaborator `mlx5_malloc` becomes a
boolean oracle telling whether the allocation succeeds.
-/

namespace Mlx5FlowOs

/-- Modelled from the spec: the positive error kind for a platform/feature gap
(`ENOTSUP`), carried in the out-of-band error slot on failure. The numeric
value is the usual platform constant; the claims depend only on it being
positive and distinct from `ENOMEM`. -/
def ENOTSUP : Nat := 95

/-- Modelled from the spec: the positive error kind for an allocation failure
(`ENOMEM`). -/
def ENOMEM : Nat := 12

/-- Modelled from the spec: the offending-attribute tags of the structured
error written into the error sink (`RTE_FLOW_ERROR_TYPE_ATTR_*` in the
source's calls to `rte_flow_error_set`). -/
inductive RteFlowErrorType where
  | attrGroup
  | attrPriority
  | attrTransfer
  | attrIngress
  deriving DecidableEq, Repr

/-- Modelled from the spec: the structured error description written into the
error sink: an error kind, the offending-attribute tag, an optional cause
handle (always NULL in this unit) and a human-readable message. -/
structure RteFlowError where
  errType : RteFlowErrorType
  cause : Option Nat
  message : String
  deriving DecidableEq, Repr

/-- Modelled from the spec: `FlowAttributes` — `struct rte_flow_attr` as the
spec's data model describes it: two non-negative integers `group` and
`priority` plus the `ingress`, `egress` and `transfer` flags. -/
structure RteFlowAttr where
  group : Nat
  priority : Nat
  ingress : Bool
  egress : Bool
  transfer : Bool
  deriving DecidableEq, Repr

/-- Result of `mlx5_flow_os_validate_flow_attributes`: the returned status,
the value stored into `rte_errno` during the call (`none` when the call does
not touch it), and the structured error written into the caller's error slot
(`none` when nothing is written). -/
structure ValidateResult where
  ret : Int
  rteErrno : Option Nat
  error : Option RteFlowError
  deriving DecidableEq, Repr

/-- Modelled from the spec: the error sink `rte_flow_error_set` (DPDK core,
not part of this file). It writes the structured error description into the
caller's error slot, stores the positive error kind into `rte_errno`, and
returns the negated error kind as the status. -/
def rteFlowErrorSet (code : Nat) (ty : RteFlowErrorType)
    (cause : Option Nat) (message : String) : ValidateResult :=
  { ret := -(code : Int)
    rteErrno := some code
    error := some { errType := ty, cause := cause, message := message } }

/-- Embedding of `mlx5_flow_os_validate_flow_attributes`. The `dev` pointer
and the `ext` flag (`external` in the source) are explicitly unused
(`RTE_SET_USED`). The checks run in source order: group, priority, transfer,
ingress; the first violated one returns through `rte_flow_error_set`, and the
fall-through returns `ret = 1`. -/
def mlx5_flow_os_validate_flow_attributes (dev : Nat) (attributes : RteFlowAttr)
    (ext : Bool) : ValidateResult :=
  let ret : Int := 1
  let _ := dev
  let _ := ext
  if attributes.group ≠ 0 then
    rteFlowErrorSet ENOTSUP RteFlowErrorType.attrGroup none
      "groups are not supported"
  else if attributes.priority ≠ 0 then
    rteFlowErrorSet ENOTSUP RteFlowErrorType.attrPriority none
      "priorities are not supported"
  else if attributes.transfer then
    rteFlowErrorSet ENOTSUP RteFlowErrorType.attrTransfer none
      "transfer not supported"
  else if ¬ attributes.ingress then
    rteFlowErrorSet ENOTSUP RteFlowErrorType.attrIngress none
      "must specify ingress only"
  else
    { ret := ret, rteErrno := none, error := none }

/-- Modelled from the spec: the declared flow-attribute types of the verbs
descriptor (`enum ibv_flow_attr_type`); the source only distinguishes
`IBV_FLOW_ATTR_NORMAL` from everything else. -/
inductive IbvFlowAttrType where
  | normal
  | allDefault
  | mcDefault
  | sniffer
  deriving DecidableEq, Repr

/-- Modelled from the spec: the platform's fixed match-parameter size
`MLX5_ST_SZ_BYTES(fte_match_param)`, a compile-time constant number of bytes.
The claims depend only on it being a fixed constant. -/
def fteMatchParamBytes : Nat := 512

/-- Modelled from the spec: the caller-supplied match-criteria object
(`struct mlx5dv_flow_match_parameters`): a declared size and the mask bytes. -/
structure Mlx5dvFlowMatchParameters where
  match_sz : Nat
  match_buf : List Nat
  deriving DecidableEq, Repr

/-- Modelled from the spec: the matcher attribute descriptor
(`struct mlx5dv_flow_matcher_attr`): a declared flow-attribute type and the
match-criteria object it points at. -/
structure Mlx5dvFlowMatcherAttr where
  attrType : IbvFlowAttrType
  match_mask : Mlx5dvFlowMatchParameters
  deriving DecidableEq, Repr

/-- Modelled from the spec: `struct mlx5_matcher` — the owned matcher object:
the borrowed context handle, the by-value copy of the attribute descriptor,
and the trailing fixed-size match-mask buffer. -/
structure Mlx5Matcher where
  ctx : Nat
  attr : Mlx5dvFlowMatcherAttr
  match_buf : List Nat
  deriving DecidableEq, Repr

/-- Result of `mlx5_flow_os_create_flow_matcher`: the returned status, the
`rte_errno` value stored during the call, the `*matcher` out-parameter
(`none` models NULL), and whether the allocator was invoked on this path. -/
structure CreateMatcherResult where
  ret : Int
  rteErrno : Option Nat
  matcher : Option Mlx5Matcher
  allocCalled : Bool
  deriving DecidableEq, Repr

/-- Embedding of `mlx5_flow_os_create_flow_matcher`. `*matcher` is set to
NULL first. A descriptor type other than `IBV_FLOW_ATTR_NORMAL` returns
`-ENOTSUP` before any allocation. Otherwise `mlx5_malloc` is called (the
`allocOk` oracle tells whether it returns a block); on failure the function
returns `-ENOMEM`. On success the context handle is stored, the attribute
descriptor is copied by value (`memcpy` of `sizeof(mlx5_matcher->attr)`), and
exactly `MLX5_ST_SZ_BYTES(fte_match_param)` mask bytes are copied from the
caller's match-criteria buffer into the matcher's trailing buffer. -/
def mlx5_flow_os_create_flow_matcher (ctx : Nat) (attr : Mlx5dvFlowMatcherAttr)
    (table : Nat) (allocOk : Bool) : CreateMatcherResult :=
  let _ := table
  let matcher0 : Option Mlx5Matcher := none
  if attr.attrType ≠ IbvFlowAttrType.normal then
    { ret := -(ENOTSUP : Int), rteErrno := some ENOTSUP,
      matcher := matcher0, allocCalled := false }
  else if ¬ allocOk then
    { ret := -(ENOMEM : Int), rteErrno := some ENOMEM,
      matcher := matcher0, allocCalled := true }
  else
    let m : Mlx5Matcher :=
      { ctx := ctx
        attr := attr
        match_buf := attr.match_mask.match_buf.take fteMatchParamBytes }
    { ret := 0, rteErrno := none, matcher := some m, allocCalled := true }

/-- Embedding of `mlx5_flow_os_destroy_flow_matcher`: frees the allocation
and returns 0 unconditionally. -/
def mlx5_flow_os_destroy_flow_matcher (matcher : Mlx5Matcher) : Int :=
  let _ := matcher
  0

/-- The allocator collaborator's visible state: the list of live matcher
allocations. `mlx5_malloc` appends, `mlx5_free` removes. -/
structure OsState where
  live : List Mlx5Matcher
  deriving DecidableEq, Repr

/-- Stateful wrapper of matcher creation: runs
`mlx5_flow_os_create_flow_matcher` and records a successfully produced
matcher as a live allocation. -/
def createMatcherSt (s : OsState) (ctx : Nat) (attr : Mlx5dvFlowMatcherAttr)
    (table : Nat) (allocOk : Bool) : OsState × CreateMatcherResult :=
  let r := mlx5_flow_os_create_flow_matcher ctx attr table allocOk
  match r.matcher with
  | some m => ({ live := s.live ++ [m] }, r)
  | none => (s, r)

/-- Stateful wrapper of matcher destruction: removes the matcher from the
live allocations and returns the status of
`mlx5_flow_os_destroy_flow_matcher`. -/
def destroyMatcherSt (s : OsState) (m : Mlx5Matcher) : OsState × Int :=
  ({ live := s.live.erase m }, mlx5_flow_os_destroy_flow_matcher m)

/-- A caller scenario for the by-value-copy property: create a matcher from
descriptor `attr`, then overwrite the caller's transient descriptor storage
with `attr2`; the matcher handed back at creation time is returned. -/
def createThenMutate (ctx : Nat) (attr : Mlx5dvFlowMatcherAttr) (table : Nat)
    (attr2 : Mlx5dvFlowMatcherAttr) : Option Mlx5Matcher :=
  let r := mlx5_flow_os_create_flow_matcher ctx attr table true
  let _ := attr2
  r.matcher

/-- Result of `mlx5_flow_os_create_flow_action_dest_devx_tir`: status,
`rte_errno`, and the `*action` out-parameter (`none` models NULL). -/
structure ActionCreateResult where
  ret : Int
  rteErrno : Nat
  action : Option Nat
  deriving DecidableEq, Repr

/-- Embedding of `mlx5_flow_os_create_flow_action_dest_devx_tir`: sets
`*action = NULL`, then `rte_errno = ENOTSUP`, and returns `-rte_errno`. -/
def mlx5_flow_os_create_flow_action_dest_devx_tir (tir : Nat) :
    ActionCreateResult :=
  let _ := tir
  let action : Option Nat := none
  { ret := -(ENOTSUP : Int), rteErrno := ENOTSUP, action := action }

/-- Embedding of `mlx5_flow_os_destroy_flow_action`: sets
`rte_errno = ENOTSUP` and returns `-rte_errno`; the pair is
(status, rte_errno). -/
def mlx5_flow_os_destroy_flow_action (action : Nat) : Int × Nat :=
  let _ := action
  (-(ENOTSUP : Int), ENOTSUP)

/-- Result of `mlx5_flow_os_create_flow`: status, `rte_errno`, and the
`*flow` out-parameter (`none` models NULL). -/
structure FlowCreateResult where
  ret : Int
  rteErrno : Nat
  flow : Option Nat
  deriving DecidableEq, Repr

/-- Embedding of `mlx5_flow_os_create_flow`: all inputs are accepted
syntactically and unused; sets `*flow = NULL`, `rte_errno = ENOTSUP`, and
returns `-rte_errno`. -/
def mlx5_flow_os_create_flow (matcher : Nat) (match_value : List Nat)
    (num_actions : Nat) (actions : List Nat) : FlowCreateResult :=
  let _ := matcher
  let _ := match_value
  let _ := num_actions
  let _ := actions
  let flow : Option Nat := none
  { ret := -(ENOTSUP : Int), rteErrno := ENOTSUP, flow := flow }

/-- Embedding of `mlx5_flow_os_destroy_flow`: sets `rte_errno = ENOTSUP` and
returns `-rte_errno`; the pair is (status, rte_errno). -/
def mlx5_flow_os_destroy_flow (drv_flow_ptr : Nat) : Int × Nat :=
  let _ := drv_flow_ptr
  (-(ENOTSUP : Int), ENOTSUP)

end Mlx5FlowOs

namespace Mlx5FlowOs

/-! ## Shared helper lemmas and witness inputs -/

/-- The result record of a stateful matcher creation does not depend on the
allocation state: it is exactly the pure function's result. -/
theorem createMatcherSt_snd (s : OsState) (ctx : Nat)
    (attr : Mlx5dvFlowMatcherAttr) (table : Nat) (allocOk : Bool) :
    (createMatcherSt s ctx attr table allocOk).2 =
      mlx5_flow_os_create_flow_matcher ctx attr table allocOk := by
  unfold createMatcherSt
  cases h : (mlx5_flow_os_create_flow_matcher ctx attr table allocOk).matcher <;>
    simp [h]

/-- A concrete full-size mask buffer used by witness statements. -/
def maskW : List Nat := List.replicate fteMatchParamBytes 3

/-- A concrete normal-type descriptor with a full-size mask, used by witness
statements. -/
def attrW : Mlx5dvFlowMatcherAttr :=
  { attrType := IbvFlowAttrType.normal
    match_mask := { match_sz := fteMatchParamBytes, match_buf := maskW } }

/-- A concrete normal-type descriptor with an empty mask buffer, used by
witness statements that do not constrain the mask length. -/
def attrW0 : Mlx5dvFlowMatcherAttr :=
  { attrType := IbvFlowAttrType.normal
    match_mask := { match_sz := 0, match_buf := [] } }

/-- The matcher produced from attrW0 with context handle 7. -/
def matcherW0 : Mlx5Matcher := { ctx := 7, attr := attrW0, match_buf := [] }

/-! ## Claim theorems -/

/-- Claim C1: for every FlowAttributes with group = 0, priority = 0,
transfer = false and ingress = true, validation returns the root-table
success status 1 whatever egress is; and for every input (here quantified as
a second, unconstrained attribute record) the status is never the non-root
success 0. -/
theorem validate_root_table_success (dev dev2 : Nat) (ext ext2 : Bool)
    (a b : RteFlowAttr) (hg : a.group = 0) (hp : a.priority = 0)
    (ht : a.transfer = false) (hi : a.ingress = true) :
    (mlx5_flow_os_validate_flow_attributes dev a ext).ret = 1 ∧
    (mlx5_flow_os_validate_flow_attributes dev2 b ext2).ret ≠ 0 := by
  constructor
  · simp [mlx5_flow_os_validate_flow_attributes, hg, hp, ht, hi]
  · unfold mlx5_flow_os_validate_flow_attributes rteFlowErrorSet
    split_ifs <;> simp [ENOTSUP]

/-- Witness for claim C1 at concrete attribute records. -/
theorem validate_root_table_success_witness :
    (mlx5_flow_os_validate_flow_attributes 0
      { group := 0, priority := 0, ingress := true, egress := true,
        transfer := false } true).ret = 1 ∧
    (mlx5_flow_os_validate_flow_attributes 1
      { group := 2, priority := 0, ingress := false, egress := false,
        transfer := false } false).ret ≠ 0 :=
  validate_root_table_success 0 1 true false
    { group := 0, priority := 0, ingress := true, egress := true,
      transfer := false }
    { group := 2, priority := 0, ingress := false, egress := false,
      transfer := false } rfl rfl rfl rfl

/-- Claim C2: for every FlowAttributes with group ≠ 0, validation fails (the
status is the negated ENOTSUP kind, hence negative), rte_errno is set to
ENOTSUP, and the structured error written to the sink references the group
attribute, regardless of priority, transfer, ingress and egress. -/
theorem validate_group_rejected (dev : Nat) (ext : Bool) (a : RteFlowAttr)
    (hg : a.group ≠ 0) :
    (mlx5_flow_os_validate_flow_attributes dev a ext).ret = -(ENOTSUP : Int) ∧
    (mlx5_flow_os_validate_flow_attributes dev a ext).ret < 0 ∧
    (mlx5_flow_os_validate_flow_attributes dev a ext).rteErrno = some ENOTSUP ∧
    (mlx5_flow_os_validate_flow_attributes dev a ext).error =
      some { errType := RteFlowErrorType.attrGroup, cause := none,
             message := "groups are not supported" } := by
  simp [mlx5_flow_os_validate_flow_attributes, rteFlowErrorSet, hg, ENOTSUP]

/-- Witness for claim C2 at a concrete attribute record with group = 4. -/
theorem validate_group_rejected_witness :
    (mlx5_flow_os_validate_flow_attributes 9
      { group := 4, priority := 0, ingress := true, egress := false,
        transfer := false } false).ret = -(ENOTSUP : Int) ∧
    (mlx5_flow_os_validate_flow_attributes 9
      { group := 4, priority := 0, ingress := true, egress := false,
        transfer := false } false).ret < 0 ∧
    (mlx5_flow_os_validate_flow_attributes 9
      { group := 4, priority := 0, ingress := true, egress := false,
        transfer := false } false).rteErrno = some ENOTSUP ∧
    (mlx5_flow_os_validate_flow_attributes 9
      { group := 4, priority := 0, ingress := true, egress := false,
        transfer := false } false).error =
      some { errType := RteFlowErrorType.attrGroup, cause := none,
             message := "groups are not supported" } :=
  validate_group_rejected 9 false
    { group := 4, priority := 0, ingress := true, egress := false,
      transfer := false } (by decide)

/-- Claim C3: the checks run in the fixed order group, priority, transfer,
ingress, first violation wins: when both the group and the priority
constraint are violated, any reported error references the group attribute
and never the priority attribute. -/
theorem validate_order_group_wins (dev : Nat) (ext : Bool) (a : RteFlowAttr)
    (e : RteFlowError) (hg : a.group ≠ 0) (hp : a.priority ≠ 0)
    (he : (mlx5_flow_os_validate_flow_attributes dev a ext).error = some e) :
    e.errType = RteFlowErrorType.attrGroup ∧
    e.errType ≠ RteFlowErrorType.attrPriority := by
  simp [mlx5_flow_os_validate_flow_attributes, rteFlowErrorSet, hg] at he
  subst he
  exact ⟨rfl, by decide⟩

/-- Witness for claim C3 at a concrete record violating both the group and
the priority constraint. -/
theorem validate_order_group_wins_witness :
    ({ errType := RteFlowErrorType.attrGroup, cause := none,
       message := "groups are not supported" } : RteFlowError).errType =
      RteFlowErrorType.attrGroup ∧
    ({ errType := RteFlowErrorType.attrGroup, cause := none,
       message := "groups are not supported" } : RteFlowError).errType ≠
      RteFlowErrorType.attrPriority :=
  validate_order_group_wins 2 true
    { group := 3, priority := 5, ingress := true, egress := false,
      transfer := false }
    { errType := RteFlowErrorType.attrGroup, cause := none,
      message := "groups are not supported" }
    (by decide) (by decide) (by rfl)

end Mlx5FlowOs

namespace Mlx5FlowOs

/-- Claim C4: for every well-formed input — including an empty action list
and a zero-length match value, both instantiable since the lists are
universally quantified — action create (dest-tir), action destroy, flow-rule
create and flow-rule destroy each fail with ENOTSUP (status is the negated
kind, rte_errno holds the positive kind), and every output handle among them
is null. -/
theorem stubs_not_supported (tir act mtc fl : Nat) (match_value : List Nat)
    (num_actions : Nat) (actions : List Nat) :
    mlx5_flow_os_create_flow_action_dest_devx_tir tir =
      { ret := -(ENOTSUP : Int), rteErrno := ENOTSUP, action := none } ∧
    mlx5_flow_os_destroy_flow_action act = (-(ENOTSUP : Int), ENOTSUP) ∧
    mlx5_flow_os_create_flow mtc match_value num_actions actions =
      { ret := -(ENOTSUP : Int), rteErrno := ENOTSUP, flow := none } ∧
    mlx5_flow_os_destroy_flow fl = (-(ENOTSUP : Int), ENOTSUP) :=
  ⟨rfl, rfl, rfl, rfl⟩

/-- Claim C5: a matcher created from a normal-type descriptor with a
full-size mask buffer stores mask bytes byte-identical to the caller's
buffer and a by-value copy of the descriptor; overwriting the caller's
transient descriptor storage afterwards (here with the universally
quantified attr2) leaves the stored matcher unchanged. -/
theorem create_matcher_copies (ctx : Nat) (attr attr2 : Mlx5dvFlowMatcherAttr)
    (table : Nat) (hty : attr.attrType = IbvFlowAttrType.normal)
    (hlen : attr.match_mask.match_buf.length = fteMatchParamBytes) :
    (mlx5_flow_os_create_flow_matcher ctx attr table true).matcher =
      some { ctx := ctx, attr := attr,
             match_buf := attr.match_mask.match_buf } ∧
    createThenMutate ctx attr table attr2 =
      (mlx5_flow_os_create_flow_matcher ctx attr table true).matcher := by
  have htake : attr.match_mask.match_buf.take fteMatchParamBytes =
      attr.match_mask.match_buf :=
    List.take_of_length_le (le_of_eq hlen)
  exact ⟨by simp [mlx5_flow_os_create_flow_matcher, hty, htake], rfl⟩

/-- Witness for claim C5 at a concrete full-size mask. -/
theorem create_matcher_copies_witness :
    (mlx5_flow_os_create_flow_matcher 7 attrW 0 true).matcher =
      some { ctx := 7, attr := attrW, match_buf := maskW } ∧
    createThenMutate 7 attrW 0 attrW0 =
      (mlx5_flow_os_create_flow_matcher 7 attrW 0 true).matcher :=
  create_matcher_copies 7 attrW attrW0 0 rfl
    (by simp [attrW, maskW])

/-- Claim C6: a matcher-create call whose descriptor declares a type other
than normal fails with ENOTSUP, leaves the output matcher handle null, and
never reaches the allocator call. -/
theorem create_matcher_bad_type (ctx : Nat) (attr : Mlx5dvFlowMatcherAttr)
    (table : Nat) (allocOk : Bool)
    (hty : attr.attrType ≠ IbvFlowAttrType.normal) :
    mlx5_flow_os_create_flow_matcher ctx attr table allocOk =
      { ret := -(ENOTSUP : Int), rteErrno := some ENOTSUP,
        matcher := none, allocCalled := false } := by
  simp [mlx5_flow_os_create_flow_matcher, hty]

/-- Witness for claim C6 at a sniffer-type descriptor. -/
theorem create_matcher_bad_type_witness :
    mlx5_flow_os_create_flow_matcher 5
      { attrType := IbvFlowAttrType.sniffer,
        match_mask := { match_sz := 0, match_buf := [] } } 1 true =
      { ret := -(ENOTSUP : Int), rteErrno := some ENOTSUP,
        matcher := none, allocCalled := false } :=
  create_matcher_bad_type 5
    { attrType := IbvFlowAttrType.sniffer,
      match_mask := { match_sz := 0, match_buf := [] } } 1 true (by decide)

/-- Claim C7: a matcher-create call with a normal-type descriptor for which
the allocator returns null fails with ENOMEM and leaves the output matcher
handle null — no partially constructed object is reachable through it. -/
theorem create_matcher_alloc_failure (ctx : Nat)
    (attr : Mlx5dvFlowMatcherAttr) (table : Nat)
    (hty : attr.attrType = IbvFlowAttrType.normal) :
    mlx5_flow_os_create_flow_matcher ctx attr table false =
      { ret := -(ENOMEM : Int), rteErrno := some ENOMEM,
        matcher := none, allocCalled := true } := by
  simp [mlx5_flow_os_create_flow_matcher, hty]

/-- Witness for claim C7 at a concrete normal-type descriptor. -/
theorem create_matcher_alloc_failure_witness :
    mlx5_flow_os_create_flow_matcher 7 attrW0 2 false =
      { ret := -(ENOMEM : Int), rteErrno := some ENOMEM,
        matcher := none, allocCalled := true } :=
  create_matcher_alloc_failure 7 attrW0 2 rfl

/-- Claim C8: destroying a matcher handle returned by a successful create
returns success status 0. -/
theorem destroy_after_create_ok (s s1 : OsState) (ctx : Nat)
    (attr : Mlx5dvFlowMatcherAttr) (table : Nat) (allocOk : Bool)
    (r : CreateMatcherResult) (m : Mlx5Matcher)
    (hc : createMatcherSt s ctx attr table allocOk = (s1, r))
    (hm : r.matcher = some m) :
    (destroyMatcherSt s1 m).2 = 0 := rfl

/-- Witness for claim C8: a concrete create followed by destroy. -/
theorem destroy_after_create_ok_witness :
    (destroyMatcherSt { live := [matcherW0] } matcherW0).2 = 0 :=
  destroy_after_create_ok { live := [] } { live := [matcherW0] } 7 attrW0 0
    true
    { ret := 0, rteErrno := none, matcher := some matcherW0,
      allocCalled := true }
    matcherW0 (by rfl) rfl

/-- Claim C9: create-matcher, destroy-matcher, create-matcher with the same
context, descriptor and allocator outcome yields a second matcher whose
stored mask bytes equal the first matcher's stored mask bytes: the second
lifecycle's result is independent of the state left by the first. -/
theorem roundtrip_same_mask (s : OsState) (ctx : Nat)
    (attr : Mlx5dvFlowMatcherAttr) (table : Nat) (allocOk : Bool)
    (m1 m2 : Mlx5Matcher)
    (h1 : ((createMatcherSt s ctx attr table allocOk).2).matcher = some m1)
    (h2 : ((createMatcherSt
            ((destroyMatcherSt
              (createMatcherSt s ctx attr table allocOk).1 m1).1)
            ctx attr table allocOk).2).matcher = some m2) :
    m2.match_buf = m1.match_buf := by
  rw [createMatcherSt_snd] at h1 h2
  rw [h1] at h2
  injection h2 with h
  rw [h]

/-- Witness for claim C9: a concrete create, destroy, create round trip. -/
theorem roundtrip_same_mask_witness :
    matcherW0.match_buf = matcherW0.match_buf :=
  roundtrip_same_mask { live := [] } 7 attrW0 0 true matcherW0 matcherW0
    (by rfl) (by rfl)

/-- Claim C10: the validator's result — status, rte_errno and the structured
error written to the sink — depends only on the attributes: two calls with
identical attributes but arbitrary device pointers and external flags return
identical results. -/
theorem validate_ignores_dev_and_external (dev dev2 : Nat) (ext ext2 : Bool)
    (a : RteFlowAttr) :
    mlx5_flow_os_validate_flow_attributes dev a ext =
      mlx5_flow_os_validate_flow_attributes dev2 a ext2 := rfl

end Mlx5FlowOs
